import Mathlib

/-!
Verification of the GSC page-group analysis app (app.py).

The app is a single-pass pipeline over an uploaded table: derive comparison
date windows from the test window, split rows into test and control cohorts
by a regex on the Landing Page column, filter each cohort to a date window,
sum the metric columns, and compare totals. Dates are embedded as proleptic
Gregorian day numbers, matching the arithmetic of Python datetime.date and
timedelta; table cells that pandas marks NaT or NaN are embedded as none.
-/

namespace GscChange

/-- Day number (days since 1970-01-01) of a proleptic Gregorian calendar
date. Python datetime.date uses exactly this calendar, and subtracting
timedelta with some number of days subtracts that number from the day
number, so the date arithmetic of app.py lines 87-96 is faithfully mirrored
on day numbers. -/
def daysFromCivil (y m d : Int) : Int :=
  let yy := if m ≤ 2 then y - 1 else y
  let era := (if 0 ≤ yy then yy else yy - 399) / 400
  let yoe := yy - era * 400
  let mp := if 2 < m then m - 3 else m + 9
  let doy := (153 * mp + 2) / 5 + d - 1
  let doe := yoe * 365 + yoe / 4 - yoe / 100 + doy
  era * 146097 + doe - 719468

/-- One row of the uploaded GSC table after the loader has run (app.py
lines 60-76): the Date column is parsed with errors set to coerce, so each
date is a valid day number or the NaT marker (none); the Landing Page cell
is a string or null; Url Clicks and Impressions are coerced with
pd.to_numeric and errors set to coerce, so each is a number or the NaN
marker (none). -/
structure Row where
  date : Option Int
  landingPage : Option String
  urlClicks : Option ℚ
  impressions : Option ℚ
deriving DecidableEq

/-- A pandas DataFrame: rows paired with their integer index. pd.read_csv
(app.py line 60) assigns the default RangeIndex, so the indices of a loaded
frame are distinct; filtering keeps each row with its original index. -/
abbrev Frame := List (Nat × Row)

/-- The exception raised by the Python re module when a pattern fails to
compile. app.py contains no try and no except, so such an exception
propagates out of filter_by_regex and aborts the whole script run. -/
inductive PyExc where
  | reError (pattern : String)
deriving DecidableEq

/-- Case-insensitive match of a candidate at the head of a haystack, on
character lists. -/
def charsLeadMatch : List Char → List Char → Bool
  | [], _ => true
  | _ :: _, [] => false
  | p :: ps, h :: hs => (p.toLower == h.toLower) && charsLeadMatch ps hs

/-- Case-insensitive substring search on character lists. -/
def charsSearch (pat : List Char) : List Char → Bool
  | [] => pat.isEmpty
  | h :: t => charsLeadMatch pat (h :: t) || charsSearch pat t

/-- Case-insensitive test that pat occurs inside s. -/
def strContainsCI (s pat : String) : Bool :=
  charsSearch pat.data s.data

/-- Parenthesis balance check used by the model of re compilation. -/
def parensOk : List Char → Nat → Bool
  | [], depth => depth == 0
  | c :: cs, depth =>
    if c = '(' then parensOk cs (depth + 1)
    else if c = ')' then depth != 0 && parensOk cs (depth - 1)
    else parensOk cs depth

/-- Model of the CPython re primitive behind Series.str.contains, for the
fragment this app exercises: a pattern with balanced parentheses compiles to
a case-insensitive matcher (literal substring search, which is the exact re
search semantics for the metacharacter-free patterns used in the concrete
instances below, under re.IGNORECASE); a pattern with an unbalanced
parenthesis fails to compile and raises re.error, as re.compile does. -/
def reCompile (pattern : String) : Except PyExc (String → Bool) :=
  if parensOk pattern.data 0 then Except.ok (fun s => strContainsCI s pattern)
  else Except.error (PyExc.reError pattern)

/-- Match of one row against a compiled pattern. Series.str.contains is
called with na set to False (app.py line 32), so a null Landing Page never
matches. -/
def rowMatches (m : String → Bool) (r : Row) : Bool :=
  match r.landingPage with
  | none => false
  | some s => m s

/-- app.py lines 31-32: keep the rows whose Landing Page matches the regex,
case-insensitively, with null treated as a non-match. Compiling an invalid
regex raises re.error, which nothing in app.py catches. -/
def filter_by_regex (df : Frame) (regex : String) : Except PyExc Frame :=
  match reCompile regex with
  | Except.error e => Except.error e
  | Except.ok m => Except.ok (df.filter fun p => rowMatches m p.2)

/-- Comparison of a Date cell with a timestamp: comparisons against NaT are
False in pandas, so a row with an invalid date is never within a window. -/
def tsGe (d : Option Int) (t : Int) : Bool :=
  match d with
  | none => false
  | some x => t ≤ x

/-- Comparison of a Date cell with a timestamp, upper side; NaT compares
False. -/
def tsLe (d : Option Int) (t : Int) : Bool :=
  match d with
  | none => false
  | some x => x ≤ t

/-- app.py lines 34-39: keep the rows whose Date is at least startDate and
at most endDate (both comparisons are inclusive; a NaT date fails both). -/
def filter_by_date (df : Frame) (startDate endDate : Int) : Frame :=
  df.filter fun p => tsGe p.2.date startDate && tsLe p.2.date endDate

/-- app.py lines 41-44: absolute difference, and relative difference as a
percentage guarded by the zero test on the baseline (None when the baseline
is zero; Python raises no exception on this path). -/
def calculate_differences (current previous : ℚ) : ℚ × Option ℚ :=
  let absolute_diff := current - previous
  let relative_diff := if previous ≠ 0 then some (absolute_diff / previous * 100) else none
  (absolute_diff, relative_diff)

/-- pandas Series.sum with its default skipna: the sum of the non-null
values of the column. -/
def seriesSum (xs : List (Option ℚ)) : ℚ :=
  (xs.filterMap id).sum

/-- app.py lines 119-128 pattern: sum the Url Clicks column and the
Impressions column of a filtered frame. -/
def metricSums (df : Frame) : ℚ × ℚ :=
  (seriesSum (df.map fun p => p.2.urlClicks),
   seriesSum (df.map fun p => p.2.impressions))

/-- The four derived dates of app.py lines 87-96, as day numbers. -/
structure PeriodSet where
  preTestStart : Int
  preTestEnd : Int
  prevYearStart : Int
  prevYearEnd : Int
deriving DecidableEq

/-- app.py lines 87-96: the pre-test and previous-year comparison windows
derived from the test window. test_period_length is the plain day delta of
line 88; the pre-test window ends the day before the test start; the
previous-year window is the test window shifted back a fixed 365 days. -/
def derive_periods (testStart testEnd : Int) : PeriodSet :=
  let testPeriodLength := testEnd - testStart
  let preTestEnd := testStart - 1
  let preTestStart := preTestEnd - testPeriodLength
  { preTestStart := preTestStart
    preTestEnd := preTestEnd
    prevYearStart := testStart - 365
    prevYearEnd := testEnd - 365 }

/-- app.py line 110: the control group defaults to every row of the data
whose index is not an index of the test group (the isin complement). -/
def control_group (df : Frame) (testGroup : Frame) : Frame :=
  df.filter fun p => !((testGroup.map Prod.fst).contains p.1)

/-- app.py lines 101-110: on Analyze, the test group is the data filtered
by the test regex; when the control regex is empty (falsy in Python) the
control group is everything outside the test group, otherwise it is the
data filtered by the control regex. An re.error raised by either regex
propagates out of this block uncaught. -/
def analyze_groups (df : Frame) (testRegex controlRegex : String) :
    Except PyExc (Frame × Frame) :=
  match filter_by_regex df testRegex with
  | Except.error e => Except.error e
  | Except.ok testGroup =>
    if controlRegex = "" then Except.ok (testGroup, control_group df testGroup)
    else
      match filter_by_regex df controlRegex with
      | Except.error e => Except.error e
      | Except.ok controlGroup => Except.ok (testGroup, controlGroup)

/-- Observable outcome of the upload-handling block, app.py lines 58-101. -/
structure LoadOutcome where
  schemaErrorShown : Bool
  numericCoercionRan : Bool
  analyzeReachable : Bool
deriving DecidableEq

/-- app.py lines 58-101, control flow on an uploaded CSV. When the Date
column is missing, the error message of line 64 is shown, but nothing halts
the script: the numeric coercion of lines 74-76 sits outside the else
branch and runs unconditionally, and the input widgets and the Analyze
button of lines 79-101 are reached in every case (there is no st.stop and
no early return after the error). -/
def loadAndValidate (hasDateColumn : Bool) : LoadOutcome :=
  { schemaErrorShown := !hasDateColumn
    numericCoercionRan := true
    analyzeReachable := true }

/-- The sample table of create_sample_csv (app.py lines 14-22) after the
loader coercions, with the default RangeIndex 0..3. -/
def sampleFrame : Frame :=
  [ (0, { date := some (daysFromCivil 2023 9 1), landingPage := some "/test-page-1",
          urlClicks := some 100, impressions := some 1000 }),
    (1, { date := some (daysFromCivil 2023 9 2), landingPage := some "/test-page-2",
          urlClicks := some 150, impressions := some 1200 }),
    (2, { date := some (daysFromCivil 2023 9 3), landingPage := some "/control-page-1",
          urlClicks := some 200, impressions := some 1500 }),
    (3, { date := some (daysFromCivil 2023 9 4), landingPage := some "/control-page-2",
          urlClicks := some 120, impressions := some 1100 }) ]

/-- The rows of sampleFrame whose Landing Page contains test-page: the
first two rows. -/
def sampleTestRows : Frame :=
  sampleFrame.take 2

/-- A row whose Landing Page cell is null (a missing value in the CSV). -/
def nullPageRow : Row :=
  { date := some (daysFromCivil 2023 9 5), landingPage := none,
    urlClicks := some 10, impressions := some 90 }

/-- The sample table extended with a row whose Landing Page is null. -/
def nullPageFrame : Frame :=
  sampleFrame ++ [(4, nullPageRow)]

/-! Theorems. -/

/-- C1: for every test window with start at most end, the derived pre-test
window ends the day before the test start (pre-test end plus one day is the
test start) and spans the same number of days as the test window. -/
theorem pre_test_window_spec (s e : Int) (_h : s ≤ e) :
    (derive_periods s e).preTestEnd + 1 = s ∧
    (derive_periods s e).preTestEnd - (derive_periods s e).preTestStart = e - s := by
  unfold derive_periods
  exact ⟨by ring, by ring⟩

/-- Witness for the pre-test window property at the concrete test window
2024-03-01 to 2024-03-10. -/
theorem pre_test_window_spec_witness :
    daysFromCivil 2024 3 1 ≤ daysFromCivil 2024 3 10 ∧
    ((derive_periods (daysFromCivil 2024 3 1) (daysFromCivil 2024 3 10)).preTestEnd + 1 =
        daysFromCivil 2024 3 1 ∧
      (derive_periods (daysFromCivil 2024 3 1) (daysFromCivil 2024 3 10)).preTestEnd -
          (derive_periods (daysFromCivil 2024 3 1) (daysFromCivil 2024 3 10)).preTestStart =
        daysFromCivil 2024 3 10 - daysFromCivil 2024 3 1) :=
  ⟨by decide, pre_test_window_spec (daysFromCivil 2024 3 1) (daysFromCivil 2024 3 10) (by decide)⟩

/-- C2 counterexample: for the test window 2024-03-01 to 2024-03-10 the code
shifts the start back a fixed 365 days, and because the shift crosses
2024-02-29 the derived previous-year start is not 2023-03-01 (it is
2023-03-02), so the claimed window 2023-03-01 to 2023-03-10 is wrong. -/
theorem yoy_window_2024_claim_counterexample :
    (derive_periods (daysFromCivil 2024 3 1) (daysFromCivil 2024 3 10)).prevYearStart ≠
      daysFromCivil 2023 3 1 := by
  decide

/-- C2 amended: for the test window 2024-03-01 to 2024-03-10, the derived
previous-year window is 2023-03-02 to 2023-03-11 (the test window shifted
back exactly 365 days, which lands one calendar day late because 2024 is a
leap year and the shift crosses 2024-02-29), and the derived pre-test
window is 2024-02-20 to 2024-02-29. -/
theorem periods_2024_03_amended :
    derive_periods (daysFromCivil 2024 3 1) (daysFromCivil 2024 3 10) =
      { preTestStart := daysFromCivil 2024 2 20
        preTestEnd := daysFromCivil 2024 2 29
        prevYearStart := daysFromCivil 2023 3 2
        prevYearEnd := daysFromCivil 2023 3 11 } := by
  decide

/-- C4: the difference computation returns current minus baseline as the
absolute difference; the relative difference is the percentage change when
the baseline is nonzero and None when the baseline is zero (no exception,
no infinity). -/
theorem calculate_differences_spec (current previous : ℚ) :
    (calculate_differences current previous).1 = current - previous ∧
    (previous ≠ 0 →
      (calculate_differences current previous).2 =
        some ((current - previous) / previous * 100)) ∧
    (previous = 0 → (calculate_differences current previous).2 = none) := by
  refine ⟨rfl, fun h => ?_, fun h => ?_⟩ <;> simp [calculate_differences, h]

/-- Witness for the difference computation: at current 50 and baseline 0
the absolute difference is 50 and the relative difference is None, and at
current 30 and baseline 20 the relative difference is 50 percent. -/
theorem calculate_differences_spec_witness :
    (calculate_differences 50 0).1 = 50 ∧
    (calculate_differences 50 0).2 = none ∧
    (calculate_differences 30 20).2 = some 50 := by
  have h0 := calculate_differences_spec 50 0
  have h1 := calculate_differences_spec 30 20
  refine ⟨by simpa using h0.1, h0.2.2 rfl, ?_⟩
  rw [h1.2.1 (by norm_num)]
  norm_num

/-- C8: the date filter returns exactly the rows whose date is a valid day
number lying in the window, inclusive on both ends; a row whose date is the
null marker is never returned. -/
theorem filter_by_date_spec (df : Frame) (startDate endDate : Int) (p : Nat × Row) :
    p ∈ filter_by_date df startDate endDate ↔
      p ∈ df ∧ ∃ d, p.2.date = some d ∧ startDate ≤ d ∧ d ≤ endDate := by
  unfold filter_by_date
  rw [List.mem_filter]
  cases h : p.2.date with
  | none => simp [tsGe, tsLe, h]
  | some d => simp [tsGe, tsLe, h, and_assoc]

/-- C9: the metric totals treat a null metric cell as a zero contribution:
summing a column with nulls skipped equals summing it with nulls replaced
by zero, for both metrics at once, so a row with one null cell is not
dropped and still contributes its other metric. -/
theorem metric_sums_null_as_zero (df : Frame) :
    metricSums df =
      ((df.map fun p => (p.2.urlClicks).getD 0).sum,
       (df.map fun p => (p.2.impressions).getD 0).sum) := by
  unfold metricSums
  have key : ∀ xs : List (Option ℚ), seriesSum xs = (xs.map fun o => o.getD 0).sum := by
    intro xs
    induction xs with
    | nil => rfl
    | cons x t ih =>
      cases x with
      | none => simpa [seriesSum, List.filterMap_cons] using ih
      | some v => simp [seriesSum, List.filterMap_cons] at ih ⊢; simp [ih]
  rw [key, key, List.map_map, List.map_map]
  rfl

/-- C6: at the concrete invalid pattern consisting of one opening
parenthesis, the regex fails to compile, and the resulting re.error
propagates out of the whole Analyze block: partitioning aborts with the raw
exception instead of a handled PatternError. -/
theorem invalid_regex_uncaught :
    analyze_groups sampleFrame "(" "" = Except.error (PyExc.reError "(") := by
  rfl

/-- C7: on an upload without the Date column the schema error message is
shown, yet the pipeline is not halted: the numeric coercion still runs and
the Analyze flow is still reachable on that input. -/
theorem missing_date_column_not_fatal :
    loadAndValidate false =
      { schemaErrorShown := true, numericCoercionRan := true, analyzeReachable := true } := by
  rfl

/-- With distinct indices, excluding the indices of a filtered subframe
(the isin complement of app.py line 110) is the same as filtering by the
complementary predicate. -/
theorem control_group_eq_filter_not (df : Frame) (P : Nat × Row → Bool)
    (hnd : (df.map Prod.fst).Nodup) :
    control_group df (df.filter P) = df.filter (fun p => !(P p)) := by
  unfold control_group
  apply List.filter_congr
  intro p hp
  have key : ((df.filter P).map Prod.fst).contains p.1 = P p := by
    cases hP : P p with
    | true =>
      have hmem : p ∈ df.filter P := List.mem_filter.mpr ⟨hp, hP⟩
      have hidx : p.1 ∈ (df.filter P).map Prod.fst := List.mem_map.mpr ⟨p, hmem, rfl⟩
      exact List.elem_iff.mpr hidx
    | false =>
      cases hc : ((df.filter P).map Prod.fst).contains p.1 with
      | false => rfl
      | true =>
        exfalso
        obtain ⟨q, hq, hq1⟩ := List.mem_map.mp (List.elem_iff.mp hc)
        have hqdf := (List.mem_filter.mp hq).1
        have hqP := (List.mem_filter.mp hq).2
        have hqp : q = p := List.inj_on_of_nodup_map hnd hqdf hp hq1
        rw [hqp, hP] at hqP
        exact Bool.false_ne_true hqP
  rw [key]

/-- C3: when no control pattern is given, the test cohort and the control
cohort produced by the Analyze block are disjoint and together are a
permutation of the whole dataset (the control cohort is the dataset minus
the test cohort). The index hypothesis is the default RangeIndex that
pd.read_csv assigns. -/
theorem cohort_partition (df : Frame) (pat : String) (tg cg : Frame)
    (hok : analyze_groups df pat "" = Except.ok (tg, cg))
    (hnd : (df.map Prod.fst).Nodup) :
    List.Disjoint tg cg ∧ List.Perm (tg ++ cg) df := by
  cases hcmp : reCompile pat with
  | error e => simp [analyze_groups, filter_by_regex, hcmp] at hok
  | ok m =>
    simp only [analyze_groups, filter_by_regex, hcmp, if_true,
      Except.ok.injEq, Prod.mk.injEq] at hok
    obtain ⟨htg, hcg⟩ := hok
    subst htg
    rw [control_group_eq_filter_not df _ hnd] at hcg
    subst hcg
    constructor
    · intro a ha hb
      have h1 := (List.mem_filter.mp ha).2
      have h2 := (List.mem_filter.mp hb).2
      rw [h1] at h2
      exact Bool.false_ne_true h2
    · exact List.filter_append_perm _ df

/-- Witness for the cohort partition at the sample table of app.py with
test pattern test-page and no control pattern. -/
theorem cohort_partition_witness :
    List.Disjoint sampleTestRows (control_group sampleFrame sampleTestRows) ∧
    List.Perm (sampleTestRows ++ control_group sampleFrame sampleTestRows) sampleFrame :=
  cohort_partition sampleFrame "test-page" sampleTestRows
    (control_group sampleFrame sampleTestRows) (by rfl) (by decide)

/-- C10: a row whose Landing Page is null never enters the test cohort
(str.contains with na set to False treats it as a non-match), and when no
control pattern is given such a row lands in the control cohort. -/
theorem null_page_in_control (df : Frame) (pat : String) (tg cg : Frame) (p : Nat × Row)
    (hok : analyze_groups df pat "" = Except.ok (tg, cg))
    (hnd : (df.map Prod.fst).Nodup)
    (hmem : p ∈ df) (hnull : p.2.landingPage = none) :
    p ∉ tg ∧ p ∈ cg := by
  cases hcmp : reCompile pat with
  | error e => simp [analyze_groups, filter_by_regex, hcmp] at hok
  | ok m =>
    simp only [analyze_groups, filter_by_regex, hcmp, if_true,
      Except.ok.injEq, Prod.mk.injEq] at hok
    obtain ⟨htg, hcg⟩ := hok
    subst htg
    rw [control_group_eq_filter_not df _ hnd] at hcg
    subst hcg
    have hfalse : rowMatches m p.2 = false := by simp [rowMatches, hnull]
    constructor
    · intro hin
      have h2 := (List.mem_filter.mp hin).2
      rw [hfalse] at h2
      exact Bool.false_ne_true h2
    · exact List.mem_filter.mpr ⟨hmem, by simp [hfalse]⟩

/-- Witness for the null Landing Page row: in the sample table extended
with such a row at index 4, with test pattern test-page and no control
pattern, the row is outside the test cohort and inside the control
cohort. -/
theorem null_page_in_control_witness :
    (4, nullPageRow) ∉ sampleTestRows ∧
    (4, nullPageRow) ∈ control_group nullPageFrame sampleTestRows :=
  null_page_in_control nullPageFrame "test-page" sampleTestRows
    (control_group nullPageFrame sampleTestRows) (4, nullPageRow)
    (by rfl) (by decide) (by decide) rfl

end GscChange
